import Mathlib

/-!
Verification of the MyDay agent repository against its specification.

Shallow embedding conventions:
* JavaScript numbers are modelled as rationals; `Math.round` is the
  Mathlib `round` (round half toward positive infinity, matching JS).
* SQL NULL and absent JavaScript object fields are modelled with `Option`.
* Asynchronous database methods are modelled as pure state transformers
  on an explicit store state; fallible ones return `Except`.
-/

namespace MyDay

/-! ## Discipline score (src/index.js disciplineScoreHandler, MCP executeTool) -/

/-- One weekly `daily_summary` record as read by the discipline-score
handler; `morning_energy` may be NULL. -/
structure WeeklyRecord where
  morning_energy : Option ℚ
deriving Repr, DecidableEq

/-- Embeds `weekly.map(w => Number(w.morning_energy || 0)).filter(n => !isNaN(n))`:
NULL becomes 0, and the NaN filter keeps every value produced this way. -/
def energiesOf (weekly : List WeeklyRecord) : List ℚ :=
  weekly.map (fun w => w.morning_energy.getD 0)

/-- Embeds `energies.length ? energies.reduce((a,b)=>a+b,0)/energies.length : 3`. -/
def avgMorningEnergy (weekly : List WeeklyRecord) : ℚ :=
  let energies := energiesOf weekly
  if energies.length ≠ 0 then energies.sum / energies.length else 3

/-- Embeds `(Math.max(1, Math.min(5, avgEnergy)) / 5) * 40`. -/
def energyScore (avgEnergy : ℚ) : ℚ := max 1 (min 5 avgEnergy) / 5 * 40

/-- Embeds `Math.min(40, Number(totalStaked) * 2)`. -/
def stakeScore (totalStaked : ℚ) : ℚ := min 40 (totalStaked * 2)

/-- Embeds `Math.min(20, streak * 5)`. -/
def streakScore (streak : ℕ) : ℚ := min 20 ((streak : ℚ) * 5)

/-- Embeds `Math.round(Math.max(0, Math.min(100, energyScore + stakeScore + streakScore)))`. -/
def gritScore (avgEnergy totalStaked : ℚ) (streak : ℕ) : ℤ :=
  round (max 0 (min 100 (energyScore avgEnergy + stakeScore totalStaked + streakScore streak)))

/-- Embeds `grit_score >= 80 ? 'Elite' : (grit_score >= 50 ? 'Stable' : 'Warning')`. -/
def disciplineStatus (g : ℤ) : String :=
  if g ≥ 80 then "Elite" else if g ≥ 50 then "Stable" else "Warning"

/-- The full handler computation from a weekly record set, a total staked
amount and a streak value (src/index.js lines 472-516, identically in the
MCP executeTool in part_002). -/
def disciplineScore (weekly : List WeeklyRecord) (totalStaked : ℚ) (streak : ℕ) : ℤ :=
  gritScore (avgMorningEnergy weekly) totalStaked streak

/-! ## Discipline-mood correlation (src/x402/middleware.js analyzeDisciplineMoodCorrelation) -/

/-- One `daily_summary` record as consumed by `analyzeDisciplineMoodCorrelation`. -/
structure DMRecord where
  morning_energy : Option ℚ
  evening_mood : Option ℚ
  mood_delta : Option ℚ
deriving Repr, DecidableEq

/-- JavaScript `Number.prototype.toFixed(1)` followed by the numeric
coercion the comparison operators perform on its string result: the
magnitude is rounded to one decimal place, ties away from zero
(the ECMA algorithm takes the absolute value first and picks the larger
candidate on a tie). -/
def toFixed1 (q : ℚ) : ℚ :=
  if q < 0 then -((⌊(-q) * 10 + 1/2⌋ : ℚ) / 10) else (⌊q * 10 + 1/2⌋ : ℚ) / 10

/-- Embeds `weeklyData.map(d => d.mood_delta).filter(v => v !== null)`. -/
def deltasOf (weeklyData : List DMRecord) : List ℚ :=
  weeklyData.filterMap (·.mood_delta)

/-- Embeds the truthiness filter `.filter(v => v)` applied to the mapped
`morning_energy` and `evening_mood` fields: NULL and 0 are dropped. -/
def truthyValues (vals : List (Option ℚ)) : List ℚ :=
  (vals.filterMap id).filter (· ≠ 0)

/-- The averaged delta as the code computes it:
`deltas.length > 0 ? (sum/length).toFixed(1) : 0` (a string that the
comparisons below coerce back to a number). -/
def avgDeltaOf (weeklyData : List DMRecord) : ℚ :=
  let deltas := deltasOf weeklyData
  if deltas.length > 0 then toFixed1 (deltas.sum / deltas.length) else 0

/-- The if-chain choosing the correlation tier from the (rounded) average
delta (src/x402/middleware.js lines 466-486). -/
def correlationTypeOf (avgDelta : ℚ) : String :=
  if avgDelta > 1 then "positive_strong"
  else if avgDelta > 3/10 then "positive_mild"
  else if avgDelta < -1 then "negative_strong"
  else if avgDelta < -(3/10) then "negative_mild"
  else "neutral"

/-- Result of `analyzeDisciplineMoodCorrelation`. -/
inductive AnalyzeResult where
  | insufficientData (insight : String)
  | result (averageEnergy averageMood averageDelta : ℚ)
      (correlationType : String) (insight : String) (dataPoints : ℕ)
deriving Repr, DecidableEq

/-- The per-tier insight string (src/x402/middleware.js lines 466-486). -/
def insightOf (correlationType : String) : String :=
  if correlationType = "positive_strong" then "Your discipline is fueling your happiness. Wins compound momentum."
  else if correlationType = "positive_mild" then "Small wins = mood lift. Keep building."
  else if correlationType = "negative_strong" then "Recovery mode. Be gentle with yourself. Recharge this week."
  else if correlationType = "negative_mild" then "Energy shifts are normal. The pattern will stabilize."
  else "Your mood is independent today. That is resilience."

/-- Embeds `analyzeDisciplineMoodCorrelation(weeklyData)`; the averages it
returns go through the same `toFixed(1)` rounding as the delta. -/
def analyzeDisciplineMoodCorrelation (weeklyData : List DMRecord) : AnalyzeResult :=
  if weeklyData.length = 0 then
    .insufficientData "Start your week - we will see the pattern emerge!"
  else
    let energyValues := truthyValues (weeklyData.map (·.morning_energy))
    let moodValues := truthyValues (weeklyData.map (·.evening_mood))
    let avgEnergy := if energyValues.length > 0 then toFixed1 (energyValues.sum / energyValues.length) else 0
    let avgMood := if moodValues.length > 0 then toFixed1 (moodValues.sum / moodValues.length) else 0
    let avgDelta := avgDeltaOf weeklyData
    let ct := correlationTypeOf avgDelta
    .result avgEnergy avgMood avgDelta ct (insightOf ct) weeklyData.length

/-- Projection: the correlation tier of an analysis result. -/
def AnalyzeResult.correlation : AnalyzeResult → String
  | .insufficientData _ => "insufficient_data"
  | .result _ _ _ ct _ _ => ct

/-! ## x402 payment middleware (src/x402/middleware.js) -/

/-- Fixed cUSD contract address on Celo mainnet. -/
def CELO_CUSD_ADDRESS : String := "0x765DE816845861e75A25fCA122bb6898B8B1282a"

/-- Fixed chain identifier. -/
def CELO_CHAIN_ID : ℕ := 42220

/-- CAIP-2 style network identifier. -/
def CELO_NETWORK : String := "eip155:42220"

/-- Literal value of `ethers.id("Transfer(address,address,uint256)")`, the
standard ERC-20 Transfer event topic hash (a wire-format constant). -/
def TRANSFER_EVENT_TOPIC : String :=
  "0xddf252ad1be2c89b69c2b068fc378daa952ba7f163c4a11628f55a4df523b3ef"

/-- The fixed-shape requirements object built by `buildPaymentRequirements`.
`maxAmountRequired` is serialized from the wei amount; it is kept here as
the integer the string denotes. -/
structure PaymentRequirements where
  scheme : String
  network : String
  maxAmountRequired : ℤ
  resource : String
  description : String
  mimeType : String
  payTo : String
  maxTimeoutSeconds : ℕ
  asset : String
  extraChainId : ℕ
  extraName : String
  extraVersion : String
deriving Repr, DecidableEq

/-- Embeds `ethers.parseUnits(String(amount), 18)` for the 18-decimal token. -/
def parseUnits18 (amount : ℚ) : ℤ := ⌊amount * 10 ^ 18⌋

/-- Embeds `buildPaymentRequirements` with its defaults
(src/x402/middleware.js lines 33-60). -/
def buildPaymentRequirements (payTo : String) (amount : ℤ)
    (resource : String) (description : String) : PaymentRequirements where
  scheme := "exact"
  network := CELO_NETWORK
  maxAmountRequired := amount
  resource := resource
  description := description
  mimeType := "application/json"
  payTo := payTo
  maxTimeoutSeconds := 600
  asset := CELO_CUSD_ADDRESS
  extraChainId := CELO_CHAIN_ID
  extraName := "cUSD"
  extraVersion := "1.0"

/-- An on-chain transaction as returned by `provider.getTransaction`;
`value` is in wei. -/
structure TxData where
  «to» : Option String
  value : ℕ
  «from» : String
deriving Repr, DecidableEq

/-- One receipt log entry; `data` is the raw uint256 amount. -/
structure EvmLog where
  topics : List String
  data : ℕ
deriving Repr, DecidableEq

/-- A transaction receipt as returned by `provider.getTransactionReceipt`. -/
structure TxReceipt where
  status : ℕ
  logs : List EvmLog
  blockNumber : ℕ
deriving Repr, DecidableEq

/-- The view of the RPC node used by the verification routine: lookup of a
transaction and of its receipt by hash. -/
structure Chain where
  getTransaction : String → Option TxData
  getTransactionReceipt : String → Option TxReceipt

/-- JavaScript `String.prototype.toLowerCase()`, modelled structurally
over the character list (the strings involved are ASCII hex). -/
def jsToLower (s : String) : String := String.mk (s.data.map Char.toLower)

/-- JavaScript `String.prototype.slice(n)` for a non-negative start. -/
def jsSlice (n : ℕ) (s : String) : String := String.mk (s.data.drop n)

/-- Does a log match the scanning condition of the loop in `verifyPayment`:
at least 3 topics, topic 0 is the Transfer event topic, and topic 2
(zero-padded recipient) de-pads to the vault address. -/
def logMatchesVault (vault : String) (log : EvmLog) : Bool :=
  decide (3 ≤ log.topics.length) &&
  (jsToLower (log.topics.getD 0 "") == jsToLower TRANSFER_EVENT_TOPIC) &&
  (("0x" ++ jsToLower (jsSlice 26 (log.topics.getD 2 ""))) == vault)

/-- Embeds the summation `transferAmount += Number(ethers.formatUnits(rawAmount, 18))`
over every matching log. -/
def sumVaultTransfers (vault : String) (logs : List EvmLog) : ℚ :=
  ((logs.filter (logMatchesVault vault)).map (fun l => (l.data : ℚ) / 10 ^ 18)).sum

/-- Embeds the repeated assignment `senderAddress = '0x' + log.topics[1].slice(26)`:
the sender recorded from the last matching log, or `tx.from` if none matched. -/
def lastTransferSender (vault : String) (txFrom : String) (logs : List EvmLog) : String :=
  (logs.filter (logMatchesVault vault)).foldl
    (fun _ l => "0x" ++ jsSlice 26 (l.topics.getD 1 "")) txFrom

/-- Embeds the native-CELO fallback and yields the final `transferAmount`:
if no token transfer matched, a direct positive-value transfer whose `to`
is the vault counts instead. -/
def transferredTotal (vault : String) (tx : TxData) (receipt : TxReceipt) : ℚ :=
  let s := sumVaultTransfers vault receipt.logs
  let toMatches := match tx.«to» with
    | some t => jsToLower t == vault
    | none => false
  let native : ℚ := (tx.value : ℚ) / 10 ^ 18
  if s = 0 && toMatches && decide (0 < native) then native else s

/-- Result object of `verifyPayment`. -/
structure VerifyResult where
  valid : Bool
  amount : ℚ
  «from» : String
  txHash : Option String := none
  blockNumber : Option ℕ := none
  error : Option String := none
  expected : Option ℚ := none
  received : Option ℚ := none
deriving Repr, DecidableEq

/-- Embeds `verifyPayment(txHash, vaultAddress, expectedAmount, rpcUrl)`
(src/x402/middleware.js lines 71-147); RPC transport errors are outside
the model, so the lookups are the plain `Option` results. -/
def verifyPayment (txHash vaultAddress : String) (expectedAmount : ℚ) (chain : Chain) :
    VerifyResult :=
  let vault := jsToLower vaultAddress
  match chain.getTransaction txHash with
  | none => { valid := false, amount := 0, «from» := "", error := some "tx_not_found" }
  | some tx =>
    match chain.getTransactionReceipt txHash with
    | none => { valid := false, amount := 0, «from» := tx.«from», error := some "tx_failed" }
    | some receipt =>
      if receipt.status ≠ 1 then
        { valid := false, amount := 0, «from» := tx.«from», error := some "tx_failed" }
      else
        let transferAmount := transferredTotal vault tx receipt
        let sender := lastTransferSender vault tx.«from» receipt.logs
        if transferAmount < expectedAmount * (99/100) then
          { valid := false, amount := transferAmount, «from» := sender,
            error := some "insufficient_amount",
            expected := some expectedAmount, received := some transferAmount }
        else
          { valid := true, amount := transferAmount, «from» := sender,
            txHash := some txHash, blockNumber := some receipt.blockNumber }

/-- The `X-PAYMENT` request header after the decoding step of the gate:
either a raw `0x`-prefixed transaction hash, a base64-encoded JSON
envelope (modelled by its decoded key-value fields), or content on which
decoding throws. -/
inductive XPaymentHeader where
  | rawHash (h : String)
  | b64Json (fields : List (String × String))
  | malformed
deriving Repr, DecidableEq

/-- Field access on the decoded JSON envelope. -/
def jsField (fields : List (String × String)) (k : String) : Option String :=
  (fields.find? (·.1 == k)).map (·.2)

/-- The responses `x402PaymentGate` can produce. -/
inductive GateResponse where
  | serviceUnavailable
  | paymentRequired (headerReqs : PaymentRequirements) (bodyReqs : PaymentRequirements)
  | invalidPaymentHeader
  | missingTxHash
  | verificationFailed (result : VerifyResult)
  | passThrough (verified : Bool) (txHash : String) (amount : ℚ)
      («from» : String) (blockNumber : Option ℕ)
deriving Repr, DecidableEq

/-- Embeds the middleware returned by `x402PaymentGate(opts)`
(src/x402/middleware.js lines 165-238): 503 without a configured vault;
402 carrying the requirements both as the `X-PAYMENT-REQUIRED` header and
as the `paymentRequirements` body field when no `X-PAYMENT` header is
present; otherwise decode the header, verify on-chain, and either fail
402 or pass through with the `req.x402` context. -/
def x402PaymentGate (amount : ℚ) (description : String) (resource : String)
    (vault : String) (chain : Chain) (header : Option XPaymentHeader) : GateResponse :=
  if vault = "" then .serviceUnavailable
  else
    match header with
    | none =>
      let requirements := buildPaymentRequirements vault (parseUnits18 amount) resource description
      .paymentRequired requirements requirements
    | some h =>
      let paymentData? : Option (List (String × String)) :=
        match h with
        | .rawHash s => some [("txHash", s)]
        | .b64Json fields => some fields
        | .malformed => none
      match paymentData? with
      | none => .invalidPaymentHeader
      | some paymentData =>
        match jsField paymentData "txHash" <|> jsField paymentData "tx_hash" <|>
              jsField paymentData "hash" with
        | none => .missingTxHash
        | some txHash =>
          let result := verifyPayment txHash vault amount chain
          if result.valid then
            .passThrough true txHash result.amount result.«from» result.blockNumber
          else
            .verificationFailed result

/-! ## Humanity verifier helper (part_003 createSelfProtocol) -/

/-- A user row as the verifier helper sees it. `none` on a field models a
column that is absent from the row (JavaScript `undefined`); `some b`
models a present column with truthiness `b`. -/
structure VerifierUserRow where
  verified_human : Option Bool := none
  verified : Option Bool := none
  vault_balance : Option ℚ := none
deriving Repr, DecidableEq

/-- Embeds `isVerified(telegramUserId)` (part_003 lines 11-26): no user row
means not verified; an explicit `verified_human` flag wins; the legacy
`verified` flag is the fallback; and as a last resort a positive vault
balance counts as verified. -/
def isVerified (user? : Option VerifierUserRow) : Bool :=
  match user? with
  | none => false
  | some u =>
    match u.verified_human with
    | some b => b
    | none =>
      match u.verified with
      | some b => b
      | none =>
        match u.vault_balance with
        | some v => decide (0 < v)
        | none => false

/-! ## Mission Briefing confirmation (src/bot.js handleMissionBriefingConfirm) -/

/-- The staged per-user Mission Briefing state (`userMissionState[userId]`). -/
structure MissionState where
  energy : ℤ
  missions : List String
  stake : ℚ
deriving Repr, DecidableEq

/-- The externally visible effects of the confirmation handler, in the
order the code performs them. -/
inductive BotAction where
  | sendVerificationCTA (chatId : ℤ) (link : String)
  | saveMissionsCall (userId : ℤ) (missions : List String) (energy : ℤ) (stake : ℚ)
  | saveDailySummaryCall (userId : ℤ) (energy : ℤ) (missionCount : ℕ) (stake : ℚ)
  | sendPayButton (chatId : ℤ) (totalAmount : ℚ)
  | recordVerificationAttemptCall (userId : ℤ)
  | sendConfirmation (chatId : ℤ)
deriving Repr, DecidableEq

/-- The fixed SelfClaw call-to-action link sent by the handler. -/
def selfclawLink : String := "https://selfclaw.app/?agentId=7"

/-- Embeds `handleMissionBriefingConfirm` (src/bot.js lines 539-569 and on):
on an unverified user it sends the verification call-to-action and
returns before touching the database or the flow state; on a verified
user it calls `saveMissions` and `saveDailySummary` with the staged
missions, energy and stake, sends the payment button (stake plus the
fixed 0.10 protocol fee), best-effort records a verification attempt,
clears the flow and mission state and sends the final confirmation.
Returns the action list, the flow state after, and the mission state
after. -/
def handleMissionBriefingConfirm (userId chatId : ℤ) (user? : Option VerifierUserRow)
    (flow : Option String) (st : MissionState) :
    List BotAction × Option String × Option MissionState :=
  if !isVerified user? then
    ([.sendVerificationCTA chatId selfclawLink], flow, some st)
  else
    ([.saveMissionsCall userId st.missions st.energy st.stake,
      .saveDailySummaryCall userId st.energy st.missions.length st.stake,
      .sendPayButton chatId (st.stake + 1/10),
      .recordVerificationAttemptCall userId,
      .sendConfirmation chatId],
     none, none)

/-! ## Local store (src/database/init.js) -/

/-- One appended verification-attempt object inside `daily_summary.notes`
(the real column stores the JSON encoding of the array). -/
structure AttemptRec where
  addr : String
  success : Bool
deriving Repr, DecidableEq

/-- One `daily_summary` row. `id` is the autoincrement primary key, the
only uniqueness the table declares (init.js lines 177-191: no
UNIQUE(user_id, date) constraint exists). -/
structure SummaryRow where
  id : ℕ
  user_id : ℕ
  date : String
  morning_energy : Option ℚ := none
  missions_completed : Option ℚ := none
  total_missions : Option ℚ := none
  evening_mood : Option ℚ := none
  mood_delta : Option ℚ := none
  staked_amount : Option ℚ := none
  notes : Option (List AttemptRec) := none
deriving Repr, DecidableEq

/-- One `users` row (the columns the modelled operations touch). -/
structure UserRec where
  id : ℕ
  telegram_user_id : ℤ
  name : String
  vault_balance : Option ℚ := none
deriving Repr, DecidableEq

/-- One `processed_transactions` row; `tx_hash` is declared UNIQUE NOT NULL
(init.js lines 207-217). -/
structure ProcessedTx where
  tx_hash : String
  user_id : Option ℕ
  amount : ℚ
  currency : String
deriving Repr, DecidableEq

/-- The SQLite file state restricted to the tables the claims touch. -/
structure LocalStore where
  users : List UserRec := []
  nextUserId : ℕ := 1
  summaries : List SummaryRow := []
  nextSummaryId : ℕ := 1
  processedTxs : List ProcessedTx := []
deriving Repr, DecidableEq

/-- Lookup by platform id (`WHERE telegram_user_id = ?`). -/
def LocalStore.findUser (s : LocalStore) (telegramUserId : ℤ) : Option UserRec :=
  s.users.find? (fun u => u.telegram_user_id == telegramUserId)

/-- Embeds `getOrCreateUser`: insert-then-reselect if absent. -/
def LocalStore.getOrCreateUser (s : LocalStore) (telegramUserId : ℤ) (name : String) :
    LocalStore × UserRec :=
  match s.findUser telegramUserId with
  | some u => (s, u)
  | none =>
    let u : UserRec := { id := s.nextUserId, telegram_user_id := telegramUserId, name := name }
    ({ s with users := s.users ++ [u], nextUserId := s.nextUserId + 1 }, u)

/-- SQLite `INSERT OR REPLACE` resolves conflicts only against declared
UNIQUE constraints. On `daily_summary` the only one is the autoincrement
primary key, so replacing is keyed on `id` alone; every call sites below
allocate a fresh id, making the statement behave as a plain insert. -/
def LocalStore.insertOrReplaceSummary (s : LocalStore) (row : SummaryRow) : LocalStore :=
  { s with summaries := (s.summaries.filter (fun r => r.id ≠ row.id)) ++ [row],
           nextSummaryId := s.nextSummaryId + 1 }

/-- Embeds `saveDailySummary(telegramUserId, morningEnergy, missionCount,
stakedAmount)` (init.js lines 673-691): an
`INSERT OR REPLACE ... SELECT id, ... FROM users WHERE telegram_user_id = ?`
that inserts nothing when the user row is absent and otherwise inserts a
fresh row for today. -/
def LocalStore.saveDailySummary (s : LocalStore) (telegramUserId : ℤ)
    (morningEnergy : ℚ) (missionCount : ℕ) (stakedAmount : ℚ) (today : String) : LocalStore :=
  match s.findUser telegramUserId with
  | none => s
  | some u =>
    s.insertOrReplaceSummary
      { id := s.nextSummaryId, user_id := u.id, date := today,
        morning_energy := some morningEnergy,
        total_missions := some (missionCount : ℚ),
        staked_amount := some stakedAmount }

/-- Embeds `recordVerificationAttempt(telegramUserId, addr, success, details)`
(init.js lines 33-84): ensure a user row exists (sentinel 0 when absent),
read the first matching summary row for today, append the attempt to its
notes array, and `INSERT OR REPLACE` a row carrying only user, date,
notes and timestamp. -/
def LocalStore.recordVerificationAttempt (s : LocalStore) (telegramUserId : Option ℤ)
    (addr : String) (success : Bool) (today : String) : LocalStore :=
  let tId := telegramUserId.getD 0
  let (s, u) := s.getOrCreateUser tId (if tId == 0 then "system" else "user")
  let row? := s.summaries.find? (fun r => r.user_id == u.id && r.date == today)
  let existing := (row?.bind (·.notes)).getD []
  let arr := existing ++ [{ addr := addr, success := success }]
  s.insertOrReplaceSummary
    { id := s.nextSummaryId, user_id := u.id, date := today, notes := some arr }

/-- Embeds `hasProcessedTransaction(txHash)`. -/
def LocalStore.hasProcessedTransaction (s : LocalStore) (txHash : String) : Bool :=
  s.processedTxs.any (fun t => t.tx_hash == txHash)

/-- Embeds `recordProcessedTransaction` (init.js lines 402-417): a plain
INSERT into a table whose `tx_hash` column is UNIQUE, so a duplicate hash
makes the statement fail with a constraint error. -/
def LocalStore.recordProcessedTransaction (s : LocalStore) (txHash : String)
    (telegramUserId : ℤ) (amount : ℚ) (currency : String) : Except String LocalStore :=
  if s.processedTxs.any (fun t => t.tx_hash == txHash) then
    .error "SQLITE_CONSTRAINT: UNIQUE constraint failed: processed_transactions.tx_hash"
  else
    .ok { s with processedTxs := s.processedTxs ++
      [{ tx_hash := txHash, user_id := (s.findUser telegramUserId).map (·.id),
         amount := amount, currency := currency }] }

/-- Embeds `creditUserVault(userId, amount)`: additive update of
`vault_balance`, coalescing NULL to zero. -/
def LocalStore.creditUserVault (s : LocalStore) (telegramUserId : ℤ) (amount : ℚ) : LocalStore :=
  { s with users := s.users.map (fun u =>
      if u.telegram_user_id == telegramUserId then
        { u with vault_balance := some (u.vault_balance.getD 0 + amount) }
      else u) }

/-- A JavaScript argument value for the mood parameter: either a number or
anything failing the `typeof eveningMood !== 'number'` test. -/
inductive JsArg where
  | num (q : ℚ)
  | notANumber
deriving Repr, DecidableEq

/-- The triple `updateSunsetMood` resolves with. When the summary row
exists its (possibly NULL) `morning_energy` is returned as-is, otherwise
the default 3. -/
structure SunsetResult where
  morning_energy : Option ℚ
  evening_mood : ℚ
  mood_delta : ℚ
deriving Repr, DecidableEq

/-- The first summary row for the user and date, as the `db.get` lookup of
`updateSunsetMood` returns it. -/
def LocalStore.summaryFor (s : LocalStore) (telegramUserId : ℤ) (today : String) :
    Option SummaryRow :=
  match s.findUser telegramUserId with
  | none => none
  | some u => s.summaries.find? (fun r => r.user_id == u.id && r.date == today)

/-- Embeds `updateSunsetMood(telegramUserId, eveningMood, missionsCompleted)`
(init.js lines 696-738): rejects a non-number or out-of-range mood with
the fixed error message; otherwise reads today`s `morning_energy`
(default 3 when no row exists; a present NULL value coerces to 0 in the
subtraction), computes `mood_delta = eveningMood - morningEnergy`,
updates every matching row, and resolves with the computed triple. -/
def LocalStore.updateSunsetMood (s : LocalStore) (telegramUserId : ℤ)
    (eveningMood : JsArg) (missionsCompleted : ℚ) (today : String) :
    Except String (LocalStore × SunsetResult) :=
  match eveningMood with
  | .notANumber => .error "Invalid mood score. Must be between 1 and 5."
  | .num q =>
    if q < 1 ∨ q > 5 then .error "Invalid mood score. Must be between 1 and 5."
    else
      let row? := s.summaryFor telegramUserId today
      let morningForDelta : ℚ := match row? with
        | none => 3
        | some r => r.morning_energy.getD 0
      let moodDelta := q - morningForDelta
      let rowMatches : SummaryRow → Bool := fun r =>
        ((s.findUser telegramUserId).map (·.id) == some r.user_id) && r.date == today
      let s' := { s with summaries := s.summaries.map (fun r =>
        if rowMatches r then
          { r with evening_mood := some q,
                   missions_completed := some missionsCompleted,
                   mood_delta := some moodDelta }
        else r) }
      .ok (s', { morning_energy := match row? with
                   | none => some 3
                   | some r => r.morning_energy,
                 evening_mood := q, mood_delta := moodDelta })

/-! ## Verifier micro-service webhook (part_003 apiVerifyHandler) -/

/-- The request body of `POST /api/verify`; absent fields are `none`. -/
structure ApiVerifyBody where
  tx_hash : Option String := none
  telegramUserId : Option ℤ := none
  amount : ℚ := 0
  currency : String := "cUSD"
deriving Repr, DecidableEq

/-- The HTTP outcomes of `apiVerifyHandler`, by status and error tag. -/
inductive ApiVerifyResponse where
  | missingParams400
  | alreadyProcessed409
  | txNotFound404
  | toAddressMismatch400
  | dbError500
  | success200
deriving Repr, DecidableEq

/-- Does `tx.to` match the vault directly (`toMatch`)? -/
def directToMatch (vault : String) (tx : TxData) : Bool :=
  match tx.«to» with
  | some t => jsToLower t == vault
  | none => false

/-- Embeds the receipt-log scan of `apiVerifyHandler`: some log with at
least 3 topics whose topic 0 is the Transfer topic and whose topic 2 is
the zero-padded vault address. -/
def transferToVaultScan (vaultTopic : String) (receipt? : Option TxReceipt) : Bool :=
  match receipt? with
  | none => false
  | some receipt =>
    receipt.logs.any (fun l =>
      decide (3 ≤ l.topics.length) &&
      (jsToLower (l.topics.getD 0 "") == jsToLower TRANSFER_EVENT_TOPIC) &&
      (jsToLower (l.topics.getD 2 "") == vaultTopic))

/-- Embeds `apiVerifyHandler` (part_003 lines 184-278): 400 on missing
hash or user id, 409 `already_processed` when the hash is already
recorded (before any further work), 404 when the transaction is unknown,
400 `to_address_mismatch` when neither the direct recipient nor a
Transfer log targets the vault, otherwise record the processed
transaction and credit the vault (500 when the insert fails). `vaultTopic`
is the 32-byte zero-padded vault address used in the log comparison. -/
def apiVerifyHandler (s : LocalStore) (body : ApiVerifyBody) (vault : String)
    (vaultTopic : String) (chain : Chain) : ApiVerifyResponse × LocalStore :=
  match body.tx_hash, body.telegramUserId with
  | none, _ => (.missingParams400, s)
  | _, none => (.missingParams400, s)
  | some txHash, some uid =>
    if s.hasProcessedTransaction txHash then (.alreadyProcessed409, s)
    else
      match chain.getTransaction txHash with
      | none => (.txNotFound404, s)
      | some tx =>
        let receipt? := chain.getTransactionReceipt txHash
        let toMatch := directToMatch vault tx
        let transferToVault := transferToVaultScan vaultTopic receipt?
        if !toMatch && !transferToVault then (.toAddressMismatch400, s)
        else
          match s.recordProcessedTransaction txHash uid body.amount body.currency with
          | .error _ => (.dbError500, s)
          | .ok s' => (.success200, s'.creditUserVault uid body.amount)

/-! ## Remote store (part_001 SupabaseStore) -/

/-- A JSON value, for the `details` column content of `daily_logs` (the
real column stores its serialized text). -/
inductive Json where
  | null
  | num (q : ℚ)
  | str (s : String)
  | arr (xs : List Json)
  | obj (fields : List (String × Json))

/-- Key lookup on a JSON object value. -/
def Json.lookup : Json → String → Option Json
  | .obj fields, k => (fields.find? (·.1 == k)).map (·.2)
  | _, _ => none

/-- A numeric field of a JSON value, when present and numeric. -/
def Json.numField (j : Json) (k : String) : Option ℚ :=
  match j.lookup k with
  | some (.num q) => some q
  | _ => none

/-- One `daily_logs` row (the columns the modelled operations touch). -/
structure DailyLogRow where
  telegram_id : Option ℤ
  log_type : String
  date : Option String
  details : Option Json

/-- The remote-store state. -/
structure RemoteStore where
  daily_logs : List DailyLogRow := []

/-- Embeds the remote `saveMissions(telegramId, missions, energyLevel,
stakedAmount)` (part_001 lines 133-146): one inserted `missions`-tagged
log row whose details JSON carries the keys `missions`, `energy_level`
and `staked_amount`. -/
def RemoteStore.saveMissions (s : RemoteStore) (telegramId : ℤ) (missions : List String)
    (energyLevel : ℚ) (stakedAmount : ℚ) (today : String) : RemoteStore :=
  { s with daily_logs := s.daily_logs ++
      [{ telegram_id := some telegramId, log_type := "missions", date := some today,
         details := some (.obj
           [("missions", .arr (missions.map .str)),
            ("energy_level", .num energyLevel),
            ("staked_amount", .num stakedAmount)]) }] }

/-- Embeds `const s = parsed.stakedAmount || 0; total += Number(s || 0)`:
only the camelCase `stakedAmount` key is read, any falsy or absent value
contributes zero. Rows whose details fail to parse are skipped, matching
the try/catch. -/
def stakedOfDetails (details : Option Json) : ℚ :=
  match details with
  | some parsed =>
    match parsed.numField "stakedAmount" with
    | some q => q
    | none => 0
  | none => 0

/-- Embeds the remote `getTotalStaked(telegramId)` (part_001 lines
184-204): sum over every `missions`-tagged row of the user. -/
def RemoteStore.getTotalStaked (s : RemoteStore) (telegramId : ℤ) : ℚ :=
  ((s.daily_logs.filter (fun d =>
      d.telegram_id == some telegramId && d.log_type == "missions")).map
    (fun d => stakedOfDetails d.details)).sum

/-! ## Scheduler (src/services/scheduler.js initScheduler) -/

/-- The local wall-clock data one tick of the per-minute cron derives for
a user, plus the date string keying the in-memory guard and the flow
state the sunset guard consults. -/
structure Tick where
  hour : ℕ
  minute : ℕ
  day : ℕ
  dateStr : String
  flowState : Option String := none
deriving Repr, DecidableEq

/-- A proactive send fired by the scheduler. -/
inductive NudgeSend where
  | morning (user : ℤ)
  | sunset (user : ℤ)
  | weekly (user : ℤ)
deriving Repr, DecidableEq

/-- The in-memory scheduler state: the `lastTriggered` map from
`user:tz:trigger` keys to date strings, and the `_pendingSunset` flags
set on the bot instance. -/
structure SchedState where
  lastTriggered : List (String × String) := []
  pendingSunset : List ℤ := []
deriving Repr, DecidableEq

/-- Map read `lastTriggered[key]`. -/
def SchedState.lastOf (st : SchedState) (key : String) : Option String :=
  (st.lastTriggered.find? (·.1 == key)).map (·.2)

/-- Map write `lastTriggered[key] = date`. -/
def SchedState.markFired (st : SchedState) (key : String) (date : String) : SchedState :=
  { st with lastTriggered := (key, date) :: st.lastTriggered.filter (·.1 ≠ key) }

/-- The five flow states the sunset trigger defers on. -/
def blockingStates : List String :=
  ["onboarding_city", "mission_briefing_energy", "mission_briefing_goals",
   "mission_briefing_stake", "mission_briefing_confirm"]

/-- The 08:00 morning trigger block of the tick (scheduler.js lines
45-57): fire the morning nudge unless the per-user-per-trigger marker
already carries the current date string. -/
def morningStep (st : SchedState) (keyBase : String) (telegramId : ℤ) (t : Tick) :
    SchedState × List NudgeSend :=
  if t.hour == 8 && t.minute == 0 then
    let key := keyBase ++ ":morning"
    if st.lastOf key == some t.dateStr then (st, [])
    else (st.markFired key t.dateStr, [NudgeSend.morning telegramId])
  else (st, [])

/-- The 20:00 sunset trigger block (scheduler.js lines 59-93): guarded
by the same marker scheme, and deferred (pending flag, no marker, no
send) while the user is in one of the five blocking flow states. -/
def sunsetStep (st : SchedState) (keyBase : String) (telegramId : ℤ) (t : Tick) :
    SchedState × List NudgeSend :=
  if t.hour == 20 && t.minute == 0 then
    let key := keyBase ++ ":sunset"
    if st.lastOf key == some t.dateStr then (st, [])
    else
      match t.flowState with
      | some flow =>
        if blockingStates.contains flow then
          ({ st with pendingSunset := st.pendingSunset ++ [telegramId] }, [])
        else (st.markFired key t.dateStr, [NudgeSend.sunset telegramId])
      | none => (st.markFired key t.dateStr, [NudgeSend.sunset telegramId])
  else (st, [])

/-- The Friday 17:00 weekly roundup block (scheduler.js lines 95-101). -/
def weeklyStep (st : SchedState) (keyBase : String) (telegramId : ℤ) (t : Tick) :
    SchedState × List NudgeSend :=
  if t.day == 5 && t.hour == 17 && t.minute == 0 then
    let key := keyBase ++ ":weekly"
    if st.lastOf key == some t.dateStr then (st, [])
    else (st.markFired key t.dateStr, [NudgeSend.weekly telegramId])
  else (st, [])

/-- Embeds one user of the per-minute cron tick (scheduler.js lines
32-106): the three trigger blocks run in order over the shared
`lastTriggered` state. -/
def schedulerTickUser (st : SchedState) (telegramId : ℤ) (tz : String) (t : Tick) :
    SchedState × List NudgeSend :=
  let keyBase := toString telegramId ++ ":" ++ tz
  let m := morningStep st keyBase telegramId t
  let su := sunsetStep m.1 keyBase telegramId t
  let w := weeklyStep su.1 keyBase telegramId t
  (w.1, m.2 ++ su.2 ++ w.2)

/-- Runs a sequence of ticks for one user, collecting every send. -/
def runTicks (st : SchedState) (telegramId : ℤ) (tz : String) :
    List Tick → SchedState × List NudgeSend
  | [] => (st, [])
  | t :: ts =>
    let (st', sends) := schedulerTickUser st telegramId tz t
    let (st'', rest) := runTicks st' telegramId tz ts
    (st'', sends ++ rest)

/-- Counts the morning-nudge sends in a send list. -/
def morningCount (sends : List NudgeSend) : ℕ :=
  sends.countP (fun s => match s with | .morning _ => true | _ => false)

/-- Sixty consecutive one-minute ticks spanning the 08:00 boundary
(07:30 through 08:29) of a single calendar day. -/
def sixtyTicks (dateStr : String) : List Tick :=
  (List.range 60).map (fun i =>
    { hour := (450 + i) / 60, minute := (450 + i) % 60, day := 1, dateStr := dateStr })

/-! ## Free-text router, energy step (src/bot.js handleAllMessages lines 115-122) -/

/-- The value of a decimal digit, or of a hexadecimal digit when the radix
is 16, as JavaScript parseInt accepts it. -/
def jsDigitVal (radix : ℕ) (c : Char) : Option ℕ :=
  if c.isDigit then some (c.toNat - '0'.toNat)
  else if radix == 16 && 'a' ≤ c.toLower && c.toLower ≤ 'f' then
    some (c.toLower.toNat - 'a'.toNat + 10)
  else none

/-- Embeds JavaScript `parseInt(text)` with no explicit radix: leading
whitespace is skipped, an optional sign read, a `0x`/`0X` prefix selects
radix 16, then the longest digit prefix is converted; no digits means
NaN, modelled as `none`. -/
def parseIntJS (text : String) : Option ℤ :=
  let cs := text.toList.dropWhile (·.isWhitespace)
  let (sign, cs) : ℤ × List Char :=
    match cs with
    | '-' :: rest => (-1, rest)
    | '+' :: rest => (1, rest)
    | _ => (1, cs)
  let (radix, cs) : ℕ × List Char :=
    match cs with
    | '0' :: 'x' :: rest => (16, rest)
    | '0' :: 'X' :: rest => (16, rest)
    | _ => (10, cs)
  let digits := cs.takeWhile (fun c => (jsDigitVal radix c).isSome)
  if digits.isEmpty then none
  else some (sign * digits.foldl (fun acc c => acc * radix + ((jsDigitVal radix c).getD 0)) 0)

/-- Marker for the Step 2 prompt `handleMissionEnergyInput` sends when the
flow advances (the full Markdown template is not claim-relevant). -/
def missionGoalsPrompt : String := "Mission Briefing - Your 3 Missions"

/-- The outcome of routing one free-text message. -/
structure RouterOutcome where
  flowState : Option String
  missionState : Option MissionState
  replies : List String
deriving Repr, DecidableEq

/-- Embeds the `mission_briefing_energy` branch of `handleAllMessages`
(src/bot.js lines 115-122) together with `handleMissionEnergyInput`
(lines 377-420): `parseInt` the text; a value in {1..5} stores the fresh
mission state and advances to `mission_briefing_goals` with the Step 2
prompt; anything else falls through every later flow-state branch and
reaches the final comment `Ignore unrecognized input` with no reply and
no state change. -/
def handleEnergyMessage (text : String) (prevMission : Option MissionState) : RouterOutcome :=
  match parseIntJS text with
  | some n =>
    if 1 ≤ n ∧ n ≤ 5 then
      { flowState := some "mission_briefing_goals",
        missionState := some { energy := n, missions := [], stake := 0 },
        replies := [missionGoalsPrompt] }
    else
      { flowState := some "mission_briefing_energy", missionState := prevMission, replies := [] }
  | none =>
    { flowState := some "mission_briefing_energy", missionState := prevMission, replies := [] }

/-! ## Concrete fixtures for witnesses and counterexamples -/

/-- A vault address, already lowercase. -/
def demoVault : String := "0xaaaaaaaaaaaaaaaaaaaaaaaaaaaaaaaaaaaaaaaa"

/-- The 24 zero hex digits padding an address to a 32-byte topic. -/
def pad24 : String := "000000000000000000000000"

/-- The demo sender address body (40 hex digits, no prefix). -/
def demoSender40 : String := "bbbbbbbbbbbbbbbbbbbbbbbbbbbbbbbbbbbbbbbb"

/-- An ERC-20 Transfer log to the demo vault of the given raw amount. -/
def demoTransferLog (amountWei : ℕ) : EvmLog where
  topics := [TRANSFER_EVENT_TOPIC,
             "0x" ++ pad24 ++ demoSender40,
             "0x" ++ pad24 ++ "aaaaaaaaaaaaaaaaaaaaaaaaaaaaaaaaaaaaaaaa"]
  data := amountWei

/-- A demo transaction from the sender. -/
def demoTx : TxData where
  «to» := some demoVault
  value := 0
  «from» := "0x" ++ demoSender40

/-- A successful receipt transferring 0.1 token (in wei) to the vault. -/
def demoReceiptGood : TxReceipt where
  status := 1
  logs := [demoTransferLog (10 ^ 17)]
  blockNumber := 5

/-- A successful receipt transferring only 0.09 token to the vault,
90 percent of the expected 0.1. -/
def demoReceiptBad : TxReceipt where
  status := 1
  logs := [demoTransferLog (9 * 10 ^ 16)]
  blockNumber := 6

/-- A chain view serving the two demo transactions. -/
def demoChain : Chain where
  getTransaction := fun h =>
    if h == "0xgood" then some demoTx
    else if h == "0xbad" then some demoTx
    else none
  getTransactionReceipt := fun h =>
    if h == "0xgood" then some demoReceiptGood
    else if h == "0xbad" then some demoReceiptBad
    else none

/-- A chain view that knows no transactions. -/
def emptyChain : Chain where
  getTransaction := fun _ => none
  getTransactionReceipt := fun _ => none

/-- A local store holding one registered user with platform id 42. -/
def demoUserStore : LocalStore where
  users := [{ id := 1, telegram_user_id := 42, name := "Demo" }]
  nextUserId := 2

/-- A local store where user 42 already has a summary row for 2026-10-12
with morning energy 2. -/
def demoSunsetStore : LocalStore where
  users := [{ id := 1, telegram_user_id := 42, name := "Demo" }]
  nextUserId := 2
  summaries := [{ id := 1, user_id := 1, date := "2026-10-12",
                  morning_energy := some 2, total_missions := some 1,
                  staked_amount := some 1 }]
  nextSummaryId := 2

/-- An empty local store. -/
def demoStoreA : LocalStore := {}

/-- The store after recording transaction hash 0xabc once. -/
def demoStoreB : LocalStore where
  processedTxs := [{ tx_hash := "0xabc", user_id := none, amount := 1, currency := "cUSD" }]

/-- One hundred integer mood deltas averaging exactly 1.01. -/
def dmData101 : List DMRecord :=
  List.replicate 99 ⟨none, none, some 1⟩ ++ [⟨none, none, some 2⟩]

/-- Ten integer mood deltas averaging exactly 0.3. -/
def dmData03 : List DMRecord :=
  List.replicate 7 ⟨none, none, some 0⟩ ++ List.replicate 3 ⟨none, none, some 1⟩

/-- The key guarding the morning trigger for one user and timezone. -/
def morningKey (telegramId : ℤ) (tz : String) : String :=
  toString telegramId ++ ":" ++ tz ++ ":morning"


/-- C1: the discipline-score computation returns
grit_score = round(clamp(0,100, (clamp(1,5,avgEnergy)/5)*40 +
min(40, totalStaked*2) + min(20, streak*5))) with status label Elite at
80 and above, Stable at 50 and above, and Warning below 50; average
morning energy 3 with total staked 20 and streak 4 yields 84 and Elite,
and average energy 5 with zero staked and zero streak yields 40 and
Warning. -/
theorem grit_score_spec :
    (∀ (weekly : List WeeklyRecord) (totalStaked : ℚ) (streak : ℕ),
      disciplineScore weekly totalStaked streak =
        round (max 0 (min 100
          (max 1 (min 5 (avgMorningEnergy weekly)) / 5 * 40 +
           min 40 (totalStaked * 2) + min 20 ((streak : ℚ) * 5))))) ∧
    (∀ g : ℤ,
      (80 ≤ g → disciplineStatus g = "Elite") ∧
      (50 ≤ g → g < 80 → disciplineStatus g = "Stable") ∧
      (g < 50 → disciplineStatus g = "Warning")) ∧
    disciplineScore [⟨some 3⟩] 20 4 = 84 ∧
    disciplineStatus (disciplineScore [⟨some 3⟩] 20 4) = "Elite" ∧
    disciplineScore [⟨some 5⟩] 0 0 = 40 ∧
    disciplineStatus (disciplineScore [⟨some 5⟩] 0 0) = "Warning" := by
  have hex1 : disciplineScore [⟨some 3⟩] 20 4 = 84 := by
    simp [disciplineScore, gritScore, avgMorningEnergy, energiesOf,
      energyScore, stakeScore, streakScore]
    norm_num
  have hex2 : disciplineScore [⟨some 5⟩] 0 0 = 40 := by
    simp [disciplineScore, gritScore, avgMorningEnergy, energiesOf,
      energyScore, stakeScore, streakScore]
    norm_num
  refine ⟨fun _ _ _ => rfl, ?_, hex1, ?_, hex2, ?_⟩
  · intro g
    refine ⟨fun h => ?_, fun h1 h2 => ?_, fun h => ?_⟩ <;>
    · simp only [disciplineStatus]
      split_ifs <;> first | rfl | omega
  · rw [hex1]; rfl
  · rw [hex2]; rfl

/-- Witness for C1 at the concrete scores 84, 60 and 40. -/
theorem grit_score_spec_witness :
    disciplineStatus 84 = "Elite" ∧ disciplineStatus 60 = "Stable" ∧
    disciplineStatus 40 = "Warning" :=
  ⟨(grit_score_spec.2.1 84).1 (by norm_num),
   (grit_score_spec.2.1 60).2.1 (by norm_num) (by norm_num),
   (grit_score_spec.2.1 40).2.2 (by norm_num)⟩

/-- C3: on YES at the Mission Briefing confirmation, an unverified user
(no verification flag and zero vault balance is one such case) gets only
the verification call-to-action, with no saveMissions or
saveDailySummary call and the flow and mission state left unchanged; a
verified user gets both persistence calls with the staged missions,
energy and stake. -/
theorem mission_confirm_gate :
    isVerified (some { verified_human := none, verified := none, vault_balance := some 0 }) = false ∧
    (∀ (userId chatId : ℤ) (u : Option VerifierUserRow) (flow : Option String) (st : MissionState),
      isVerified u = false →
      handleMissionBriefingConfirm userId chatId u flow st =
        ([.sendVerificationCTA chatId selfclawLink], flow, some st)) ∧
    (∀ (userId chatId : ℤ) (u : Option VerifierUserRow) (flow : Option String) (st : MissionState),
      isVerified u = true →
      BotAction.saveMissionsCall userId st.missions st.energy st.stake
          ∈ (handleMissionBriefingConfirm userId chatId u flow st).1 ∧
      BotAction.saveDailySummaryCall userId st.energy st.missions.length st.stake
          ∈ (handleMissionBriefingConfirm userId chatId u flow st).1) := by
  refine ⟨?_, ?_, ?_⟩
  · rfl
  · intro userId chatId u flow st h
    simp [handleMissionBriefingConfirm, h]
  · intro userId chatId u flow st h
    simp [handleMissionBriefingConfirm, h]

/-- Witness for C3: the unverified demo user is blocked with state
unchanged, the verified demo user gets both persistence calls. -/
theorem mission_confirm_gate_witness :
    handleMissionBriefingConfirm 1 2
        (some { verified_human := none, verified := none, vault_balance := some 0 })
        (some "mission_briefing_confirm") ⟨3, ["Morning run"], 1⟩ =
      ([.sendVerificationCTA 2 selfclawLink], some "mission_briefing_confirm",
       some ⟨3, ["Morning run"], 1⟩) ∧
    (BotAction.saveMissionsCall 1 ["Morning run"] 3 1
        ∈ (handleMissionBriefingConfirm 1 2 (some { verified_human := some true })
            none ⟨3, ["Morning run"], 1⟩).1 ∧
     BotAction.saveDailySummaryCall 1 3 1 1
        ∈ (handleMissionBriefingConfirm 1 2 (some { verified_human := some true })
            none ⟨3, ["Morning run"], 1⟩).1) :=
  ⟨mission_confirm_gate.2.1 1 2 _ _ _ rfl,
   mission_confirm_gate.2.2 1 2 (some { verified_human := some true }) none
     ⟨3, ["Morning run"], 1⟩ rfl⟩

/-- C10: at the mission_briefing_energy step the message is parsed with
parseInt, so any text whose parsed leading integer is 1 through 5 (such
as 3.9 or 2 maybe) advances the flow to the goals step with that energy,
while a message with no parsed integer in range is silently ignored with
no reply and no state change. -/
theorem energy_step_parse :
    (∀ (text : String) (prev : Option MissionState) (n : ℤ),
      parseIntJS text = some n → 1 ≤ n → n ≤ 5 →
      handleEnergyMessage text prev =
        { flowState := some "mission_briefing_goals",
          missionState := some { energy := n, missions := [], stake := 0 },
          replies := [missionGoalsPrompt] }) ∧
    (∀ (text : String) (prev : Option MissionState),
      (∀ n, parseIntJS text = some n → n < 1 ∨ 5 < n) →
      handleEnergyMessage text prev =
        { flowState := some "mission_briefing_energy", missionState := prev, replies := [] }) ∧
    parseIntJS "3.9" = some 3 ∧
    parseIntJS "2 maybe" = some 2 ∧
    handleEnergyMessage "3.9" none =
      ⟨some "mission_briefing_goals", some ⟨3, [], 0⟩, [missionGoalsPrompt]⟩ ∧
    parseIntJS "vibes" = none ∧
    handleEnergyMessage "vibes" none = ⟨some "mission_briefing_energy", none, []⟩ := by
  refine ⟨?_, ?_, by decide, by decide, ?_, by decide, ?_⟩
  · intro text prev n hp h1 h5
    simp [handleEnergyMessage, hp, h1, h5]
  · intro text prev hout
    match hp : parseIntJS text with
    | none => simp [handleEnergyMessage, hp]
    | some n =>
      have := hout n hp
      simp only [handleEnergyMessage, hp]
      rw [if_neg (by omega)]
  · simp [handleEnergyMessage, show parseIntJS "3.9" = some 3 from by decide]
  · simp [handleEnergyMessage, show parseIntJS "vibes" = none from by decide]

/-- Witness for C10 at the inputs 2 maybe and 7. -/
theorem energy_step_parse_witness :
    handleEnergyMessage "2 maybe" none =
      { flowState := some "mission_briefing_goals",
        missionState := some { energy := 2, missions := [], stake := 0 },
        replies := [missionGoalsPrompt] } ∧
    handleEnergyMessage "7" none =
      { flowState := some "mission_briefing_energy", missionState := none, replies := [] } :=
  ⟨energy_step_parse.1 "2 maybe" none 2 (by decide) (by decide) (by decide),
   energy_step_parse.2.1 "7" none (by decide)⟩


/-- C4: at most one Processed Transaction record per hash: a second
recordProcessedTransaction with the same hash fails on the UNIQUE
constraint, and POST /api/verify with an already-processed hash answers
409 already_processed leaving the store untouched (no second record, no
second vault credit). -/
theorem processed_tx_unique :
    (∀ (s : LocalStore) (txHash : String) (uid uid2 : ℤ) (a a2 : ℚ)
       (c c2 : String) (s' : LocalStore),
      s.recordProcessedTransaction txHash uid a c = .ok s' →
      s'.recordProcessedTransaction txHash uid2 a2 c2 =
        .error "SQLITE_CONSTRAINT: UNIQUE constraint failed: processed_transactions.tx_hash") ∧
    (∀ (s : LocalStore) (body : ApiVerifyBody) (vault vaultTopic : String)
       (chain : Chain) (txHash : String) (uid : ℤ),
      body.tx_hash = some txHash → body.telegramUserId = some uid →
      s.hasProcessedTransaction txHash = true →
      apiVerifyHandler s body vault vaultTopic chain = (.alreadyProcessed409, s)) := by
  constructor
  · intro s txHash uid uid2 a a2 c c2 s' hok
    rw [LocalStore.recordProcessedTransaction] at hok
    split at hok
    · exact absurd hok (by simp)
    · rename_i hnone
      rw [LocalStore.recordProcessedTransaction]
      rw [if_pos]
      cases hok
      simp
  · intro s body vault vaultTopic chain txHash uid h1 h2 h3
    rw [apiVerifyHandler]
    rw [h1, h2]
    simp [h3]

/-- Witness for C4 on the hash 0xabc recorded once. -/
theorem processed_tx_unique_witness :
    demoStoreB.recordProcessedTransaction "0xabc" 43 2 "CELO" =
      .error "SQLITE_CONSTRAINT: UNIQUE constraint failed: processed_transactions.tx_hash" ∧
    apiVerifyHandler demoStoreB
        { tx_hash := some "0xabc", telegramUserId := some 42 } "" "" emptyChain =
      (.alreadyProcessed409, demoStoreB) :=
  ⟨processed_tx_unique.1 demoStoreA "0xabc" 42 43 1 2 "cUSD" "CELO" demoStoreB (by rfl),
   processed_tx_unique.2 demoStoreB _ "" "" emptyChain "0xabc" 42 rfl rfl (by rfl)⟩

/-- C5 (code bug): daily_summary has no UNIQUE(user_id, date)
constraint, so INSERT OR REPLACE never conflicts and a second
saveDailySummary or recordVerificationAttempt for the same user and date
creates a second row instead of updating the first; evaluated at the
concrete failing input, two rows for (user 42, 2026-10-12) exist where
the claim requires at most one. -/
theorem daily_summary_duplicate_rows :
    (((demoUserStore.saveDailySummary 42 3 2 1 "2026-10-12").saveDailySummary
        42 4 2 1 "2026-10-12").summaries.filter
      (fun r => r.user_id == 1 && r.date == "2026-10-12")).length = 2 ∧
    (((demoUserStore.recordVerificationAttempt (some 42) "0xagent" false
        "2026-10-12").recordVerificationAttempt (some 42) "0xagent" false
        "2026-10-12").summaries.filter
      (fun r => r.user_id == 1 && r.date == "2026-10-12")).length = 2 := by
  constructor
  · rfl
  · rfl


/-- Counterexample for C6: 2.5 is not an integer yet lies in [1,5], and
updateSunsetMood accepts it (the code checks typeof number and the
range, never integrality), updating the row with mood_delta 0.5 instead
of rejecting with the Invalid mood score error. -/
theorem sunset_mood_accepts_noninteger :
    (¬ ∃ n : ℤ, (5/2 : ℚ) = (n : ℚ)) ∧ (1:ℚ) ≤ 5/2 ∧ (5/2:ℚ) ≤ 5 ∧
    demoSunsetStore.updateSunsetMood 42 (.num (5/2)) 0 "2026-10-12" =
      .ok ({ demoSunsetStore with
             summaries := [{ id := 1, user_id := 1, date := "2026-10-12",
                             morning_energy := some 2, missions_completed := some 0,
                             total_missions := some 1, evening_mood := some (5/2),
                             mood_delta := some (1/2), staked_amount := some 1 }] },
           { morning_energy := some 2, evening_mood := 5/2, mood_delta := 1/2 }) := by
  refine ⟨?_, by norm_num, by norm_num, ?_⟩
  · rintro ⟨n, hn⟩
    have h2 : (5 : ℚ) = 2 * n := by rw [div_eq_iff (by norm_num)] at hn; linarith
    have h3 : (5 : ℤ) = 2 * n := by exact_mod_cast h2
    omega
  · rw [LocalStore.updateSunsetMood]
    rw [if_neg (by norm_num)]
    simp [LocalStore.summaryFor, LocalStore.findUser, demoSunsetStore]
    norm_num

/-- C6 amended: updateSunsetMood rejects any eveningMood that is not a
number in [1,5] with the Invalid mood score error (non-integer numbers
inside the range are accepted); for valid input it computes
mood_delta = eveningMood - morningEnergy with morningEnergy read from
todays summary row and defaulting to 3 when no row exists, persists the
delta onto the matching rows, and returns the
(morning_energy, evening_mood, mood_delta) triple. -/
theorem sunset_mood_spec :
    (∀ (s : LocalStore) (tid : ℤ) (m : ℚ) (today : String),
      s.updateSunsetMood tid .notANumber m today =
        .error "Invalid mood score. Must be between 1 and 5.") ∧
    (∀ (s : LocalStore) (tid : ℤ) (q m : ℚ) (today : String),
      q < 1 ∨ q > 5 →
      s.updateSunsetMood tid (.num q) m today =
        .error "Invalid mood score. Must be between 1 and 5.") ∧
    (∀ (s : LocalStore) (tid : ℤ) (q m : ℚ) (today : String),
      1 ≤ q → q ≤ 5 → s.summaryFor tid today = none →
      ∃ s', s.updateSunsetMood tid (.num q) m today =
        .ok (s', { morning_energy := some 3, evening_mood := q, mood_delta := q - 3 })) ∧
    (∀ (s : LocalStore) (tid : ℤ) (q m : ℚ) (today : String) (r : SummaryRow) (e : ℚ),
      1 ≤ q → q ≤ 5 → s.summaryFor tid today = some r → r.morning_energy = some e →
      ∃ s', s.updateSunsetMood tid (.num q) m today =
          .ok (s', { morning_energy := some e, evening_mood := q, mood_delta := q - e }) ∧
        ∀ row ∈ s'.summaries,
          (s.findUser tid).map (·.id) = some row.user_id → row.date = today →
          row.mood_delta = some (q - e)) := by
  refine ⟨fun _ _ _ _ => rfl, ?_, ?_, ?_⟩
  · intro s tid q m today h
    rw [LocalStore.updateSunsetMood]
    rw [if_pos h]
  · intro s tid q m today h1 h5 hnone
    have heq : s.updateSunsetMood tid (.num q) m today =
        .ok ({ s with summaries := s.summaries.map (fun r =>
                 if ((s.findUser tid).map (fun x => x.id) == some r.user_id
                      && (r.date == today)) = true
                 then { r with evening_mood := some q, missions_completed := some m,
                               mood_delta := some (q - 3) }
                 else r) },
             { morning_energy := some 3, evening_mood := q, mood_delta := q - 3 }) := by
      rw [LocalStore.updateSunsetMood]
      rw [if_neg (by push_neg; exact ⟨h1, h5⟩)]
      rw [hnone]
    exact ⟨_, heq⟩
  · intro s tid q m today r e h1 h5 hsome hme
    rw [LocalStore.updateSunsetMood]
    rw [if_neg (by push_neg; exact ⟨h1, h5⟩)]
    rw [hsome]
    dsimp only
    rw [hme, Option.getD_some]
    refine ⟨_, rfl, ?_⟩
    intro row hrow hid hdate
    rcases List.mem_map.1 hrow with ⟨r0, hr0, rfl⟩
    by_cases hc : ((s.findUser tid).map (fun x => x.id) == some r0.user_id && (r0.date == today)) = true
    · rw [if_pos hc]
    · rw [if_neg hc] at hid hdate ⊢
      simp only [Bool.and_eq_true, beq_iff_eq] at hc
      exact absurd ⟨hid.symm ▸ rfl, hdate⟩ hc

/-- Witness for C6: mood 6 is rejected, and mood 4 on a store with no
summary row yields the default-3 triple. -/
theorem sunset_mood_spec_witness :
    LocalStore.updateSunsetMood demoUserStore 42 (.num 6) 0 "2026-10-12" =
      .error "Invalid mood score. Must be between 1 and 5." ∧
    (∃ s', demoUserStore.updateSunsetMood 42 (.num 4) 0 "2026-10-12" =
      .ok (s', { morning_energy := some 3, evening_mood := 4, mood_delta := 4 - 3 })) :=
  ⟨sunset_mood_spec.2.1 demoUserStore 42 6 0 "2026-10-12" (by norm_num),
   sunset_mood_spec.2.2.1 demoUserStore 42 4 0 "2026-10-12" (by norm_num) (by norm_num) rfl⟩


/-- C7 (code bug): saveMissions writes the stake under the snake_case
key staked_amount, but getTotalStaked reads only the camelCase key
stakedAmount, so the round-trip fails: after saving missions with stake
5 the total comes back 0 instead of including 5. -/
theorem total_staked_roundtrip_fails :
    (((RemoteStore.saveMissions { daily_logs := [] } 7 ["Morning run"] 3 5
        "2026-10-12").daily_logs.head?.bind (·.details)).map
      (fun j => j.numField "staked_amount") = some (some 5)) ∧
    (((RemoteStore.saveMissions { daily_logs := [] } 7 ["Morning run"] 3 5
        "2026-10-12").daily_logs.head?.bind (·.details)).map
      (fun j => j.numField "stakedAmount") = some none) ∧
    RemoteStore.getTotalStaked
      (RemoteStore.saveMissions { daily_logs := [] } 7 ["Morning run"] 3 5 "2026-10-12") 7 = 0 := by
  refine ⟨rfl, rfl, ?_⟩
  simp [RemoteStore.getTotalStaked, RemoteStore.saveMissions, stakedOfDetails,
    Json.numField, Json.lookup]

/-- Helper: the mood deltas extracted from a replicated record list. -/
theorem deltasOf_replicate (n : ℕ) (q : ℚ) :
    deltasOf (List.replicate n ⟨none, none, some q⟩) = List.replicate n q := by
  induction n with
  | zero => rfl
  | succ k ih =>
    simp only [List.replicate_succ, deltasOf, List.filterMap_cons] at ih ⊢
    simp [ih]

/-- Helper: `deltasOf` distributes over append. -/
theorem deltasOf_append (a b : List DMRecord) :
    deltasOf (a ++ b) = deltasOf a ++ deltasOf b := by
  simp [deltasOf]

/-- Helper: the average delta of the 100-record fixture is exactly 1.01. -/
theorem dmData101_avg :
    (deltasOf dmData101).sum / (deltasOf dmData101).length = 101/100 := by
  rw [dmData101, deltasOf_append, deltasOf_replicate]
  simp [deltasOf, List.sum_replicate]
  norm_num

/-- Helper: the average delta of the 10-record fixture is exactly 0.3. -/
theorem dmData03_avg :
    (deltasOf dmData03).sum / (deltasOf dmData03).length = 3/10 := by
  rw [dmData03, deltasOf_append, deltasOf_replicate, deltasOf_replicate]
  simp [List.sum_replicate]
  norm_num

/-- Helper: the 100-record fixture classifies as positive_mild. -/
theorem dmData101_mild :
    (analyzeDisciplineMoodCorrelation dmData101).correlation = "positive_mild" := by
  have hlen : dmData101.length = 100 := by rw [dmData101]; simp
  have hdl : (deltasOf dmData101).length = 100 := by
    rw [dmData101, deltasOf_append, deltasOf_replicate]; simp [deltasOf]
  rw [analyzeDisciplineMoodCorrelation]
  rw [if_neg (by rw [hlen]; omega)]
  rw [AnalyzeResult.correlation]
  rw [avgDeltaOf]
  rw [if_pos (by rw [hdl]; omega)]
  rw [dmData101_avg]
  rw [show toFixed1 (101/100) = 1 from by rw [toFixed1]; rw [if_neg (by norm_num)]; norm_num]
  rw [correlationTypeOf]
  rw [if_neg (by norm_num)]
  rw [if_pos (by norm_num)]

/-- Counterexample for C8: one hundred integer deltas averaging exactly
1.01 classify as positive_mild, not positive_strong, because the code
rounds the average through toFixed(1) to 1.0 before bucketing. -/
theorem mood_correlation_101_counterexample :
    (deltasOf dmData101).sum / (deltasOf dmData101).length = 101/100 ∧
    (analyzeDisciplineMoodCorrelation dmData101).correlation = "positive_mild" ∧
    (analyzeDisciplineMoodCorrelation dmData101).correlation ≠ "positive_strong" :=
  ⟨dmData101_avg, dmData101_mild, by rw [dmData101_mild]; decide⟩

/-- C8 amended: analyzeDisciplineMoodCorrelation buckets the average
mood delta after rounding it to one decimal place (toFixed(1)); the
breakpoints apply to the rounded value (above 1.0 positive_strong, above
0.3 up to 1.0 positive_mild, between -0.3 and 0.3 neutral, from -1.0 up
to below -0.3 negative_mild, below -1.0 negative_strong); an average of
exactly 0.3 classifies as neutral, and an average of 1.01 rounds to 1.0
and classifies as positive_mild. -/
theorem mood_correlation_buckets :
    (∀ weekly : List DMRecord, weekly.length ≠ 0 → (deltasOf weekly).length ≠ 0 →
      (analyzeDisciplineMoodCorrelation weekly).correlation =
        correlationTypeOf (toFixed1 ((deltasOf weekly).sum / (deltasOf weekly).length))) ∧
    (∀ d : ℚ,
      (d > 1 → correlationTypeOf d = "positive_strong") ∧
      (3/10 < d ∧ d ≤ 1 → correlationTypeOf d = "positive_mild") ∧
      (-(3/10) ≤ d ∧ d ≤ 3/10 → correlationTypeOf d = "neutral") ∧
      (-1 ≤ d ∧ d < -(3/10) → correlationTypeOf d = "negative_mild") ∧
      (d < -1 → correlationTypeOf d = "negative_strong")) ∧
    (deltasOf dmData03).sum / (deltasOf dmData03).length = 3/10 ∧
    (analyzeDisciplineMoodCorrelation dmData03).correlation = "neutral" ∧
    (analyzeDisciplineMoodCorrelation dmData101).correlation = "positive_mild" := by
  refine ⟨?_, ?_, dmData03_avg, ?_, ?_⟩
  · intro weekly hw hd
    rw [analyzeDisciplineMoodCorrelation]
    rw [if_neg hw]
    rw [AnalyzeResult.correlation]
    rw [avgDeltaOf]
    rw [if_pos (by omega)]
  · intro d
    refine ⟨fun h => ?_, fun h => ?_, fun h => ?_, fun h => ?_, fun h => ?_⟩ <;>
    · rw [correlationTypeOf]
      split_ifs <;> first | rfl | (exfalso; rcases h with ⟨h1, h2⟩ <;> linarith) | (exfalso; linarith)
  · have hlen : dmData03.length = 10 := by rw [dmData03]; simp
    have hdl : (deltasOf dmData03).length = 10 := by
      rw [dmData03, deltasOf_append, deltasOf_replicate, deltasOf_replicate]; simp
    rw [analyzeDisciplineMoodCorrelation]
    rw [if_neg (by rw [hlen]; omega)]
    rw [AnalyzeResult.correlation]
    rw [avgDeltaOf]
    rw [if_pos (by rw [hdl]; omega)]
    rw [dmData03_avg]
    rw [show toFixed1 (3/10) = 3/10 from by rw [toFixed1]; rw [if_neg (by norm_num)]; norm_num]
    rw [correlationTypeOf]
    rw [if_neg (by norm_num), if_neg (by norm_num), if_neg (by norm_num), if_neg (by norm_num)]
  · exact dmData101_mild

/-- Witness for the amended C8 at the 0.3-average fixture and two
concrete rounded deltas. -/
theorem mood_correlation_buckets_witness :
    (analyzeDisciplineMoodCorrelation dmData03).correlation =
      correlationTypeOf (toFixed1 ((deltasOf dmData03).sum / (deltasOf dmData03).length)) ∧
    correlationTypeOf 0 = "neutral" ∧ correlationTypeOf 2 = "positive_strong" :=
  ⟨mood_correlation_buckets.1 dmData03 (by rw [dmData03]; simp)
     (by rw [dmData03, deltasOf_append, deltasOf_replicate, deltasOf_replicate]; simp),
   (mood_correlation_buckets.2.1 0).2.2.1 ⟨by norm_num, by norm_num⟩,
   (mood_correlation_buckets.2.1 2).1 (by norm_num)⟩


/-- Helper: reading back the key just written. -/
theorem lastOf_markFired_self (st : SchedState) (k d : String) :
    (st.markFired k d).lastOf k = some d := by
  simp [SchedState.markFired, SchedState.lastOf]

/-- Helper: `find?` ignores entries removed by a filter on a different key. -/
theorem find_filter_other (l : List (String × String)) (k k' : String) (h : k' ≠ k) :
    (l.filter (·.1 ≠ k')).find? (·.1 == k) = l.find? (·.1 == k) := by
  induction l with
  | nil => rfl
  | cons a tl ih =>
    by_cases hk' : a.1 = k'
    · have hak : (a.1 == k) = false := beq_eq_false_iff_ne.2 (by rw [hk']; exact h)
      rw [List.filter_cons, if_neg (by simp [hk'])]
      rw [List.find?_cons, hak, ih]
    · rw [List.filter_cons, if_pos (by simpa using hk')]
      rw [List.find?_cons, List.find?_cons]
      cases hak : (a.1 == k) with
      | true => rfl
      | false => exact ih

/-- Helper: writing one key leaves the value of another unchanged. -/
theorem lastOf_markFired_other (st : SchedState) (k k' d : String) (h : k' ≠ k) :
    (st.markFired k' d).lastOf k = st.lastOf k := by
  have hne : (k' == k) = false := by simpa using h
  simp only [SchedState.markFired, SchedState.lastOf, List.find?_cons, hne]
  rw [find_filter_other _ _ _ h]

/-- Helper: appending a suffix of a different length gives a different key. -/
theorem append_suffix_ne (kb a b : String) (h : a.length ≠ b.length) :
    kb ++ a ≠ kb ++ b := by
  intro he
  have hl := congrArg String.length he
  rw [String.length_append, String.length_append] at hl
  omega

/-- Helper: the morning block either does nothing to the morning marker
and sends nothing, or sends exactly one nudge and stamps the marker. -/
theorem morningStep_char (st : SchedState) (kb : String) (uid : ℤ) (t : Tick) :
    (morningCount (morningStep st kb uid t).2 = 0 ∧ (morningStep st kb uid t).1 = st) ∨
    (morningCount (morningStep st kb uid t).2 = 1 ∧
      (morningStep st kb uid t).1 = st.markFired (kb ++ ":morning") t.dateStr ∧
      st.lastOf (kb ++ ":morning") ≠ some t.dateStr) := by
  rw [morningStep]
  by_cases h1 : (t.hour == 8 && t.minute == 0) = true
  · rw [if_pos h1]
    by_cases h2 : (st.lastOf (kb ++ ":morning") == some t.dateStr) = true
    · rw [if_pos h2]; left; exact ⟨rfl, rfl⟩
    · rw [if_neg h2]; right; exact ⟨rfl, rfl, by simpa using h2⟩
  · rw [if_neg h1]; left; exact ⟨rfl, rfl⟩

/-- Helper: the sunset block never sends a morning nudge and never
touches the morning marker. -/
theorem sunsetStep_morning (st : SchedState) (kb : String) (uid : ℤ) (t : Tick) :
    morningCount (sunsetStep st kb uid t).2 = 0 ∧
    (sunsetStep st kb uid t).1.lastOf (kb ++ ":morning") = st.lastOf (kb ++ ":morning") := by
  have hne : kb ++ ":sunset" ≠ kb ++ ":morning" := append_suffix_ne kb _ _ (by decide)
  rw [sunsetStep]
  by_cases h1 : (t.hour == 20 && t.minute == 0) = true
  · rw [if_pos h1]
    by_cases h2 : (st.lastOf (kb ++ ":sunset") == some t.dateStr) = true
    · rw [if_pos h2]; exact ⟨rfl, rfl⟩
    · rw [if_neg h2]
      cases hfs : t.flowState with
      | none => exact ⟨rfl, lastOf_markFired_other st _ _ _ hne⟩
      | some flow =>
        dsimp only
        by_cases h3 : blockingStates.contains flow = true
        · rw [if_pos h3]; exact ⟨rfl, rfl⟩
        · rw [if_neg h3]
          exact ⟨rfl, lastOf_markFired_other st _ _ _ hne⟩
  · rw [if_neg h1]; exact ⟨rfl, rfl⟩

/-- Helper: the weekly block never sends a morning nudge and never
touches the morning marker. -/
theorem weeklyStep_morning (st : SchedState) (kb : String) (uid : ℤ) (t : Tick) :
    morningCount (weeklyStep st kb uid t).2 = 0 ∧
    (weeklyStep st kb uid t).1.lastOf (kb ++ ":morning") = st.lastOf (kb ++ ":morning") := by
  have hne : kb ++ ":weekly" ≠ kb ++ ":morning" := append_suffix_ne kb _ _ (by decide)
  rw [weeklyStep]
  by_cases h1 : (t.day == 5 && t.hour == 17 && t.minute == 0) = true
  · rw [if_pos h1]
    by_cases h2 : (st.lastOf (kb ++ ":weekly") == some t.dateStr) = true
    · rw [if_pos h2]; exact ⟨rfl, rfl⟩
    · rw [if_neg h2]; exact ⟨rfl, lastOf_markFired_other st _ _ _ hne⟩
  · rw [if_neg h1]; exact ⟨rfl, rfl⟩

/-- Helper: one whole tick either sends no morning nudge and keeps the
morning marker, or sends exactly one and stamps the date. -/
theorem tick_morning_char (st : SchedState) (uid : ℤ) (tz : String) (t : Tick) :
    (morningCount (schedulerTickUser st uid tz t).2 = 0 ∧
      (schedulerTickUser st uid tz t).1.lastOf (morningKey uid tz) =
        st.lastOf (morningKey uid tz)) ∨
    (morningCount (schedulerTickUser st uid tz t).2 = 1 ∧
      (schedulerTickUser st uid tz t).1.lastOf (morningKey uid tz) = some t.dateStr ∧
      st.lastOf (morningKey uid tz) ≠ some t.dateStr) := by
  have hkey : morningKey uid tz = (toString uid ++ ":" ++ tz) ++ ":morning" := rfl
  rw [schedulerTickUser]
  set kb := toString uid ++ ":" ++ tz with hkb
  obtain ⟨hsu1, hsu2⟩ := sunsetStep_morning (morningStep st kb uid t).1 kb uid t
  obtain ⟨hw1, hw2⟩ := weeklyStep_morning (sunsetStep (morningStep st kb uid t).1 kb uid t).1 kb uid t
  rcases morningStep_char st kb uid t with ⟨hm1, hm2⟩ | ⟨hm1, hm2, hm3⟩
  · left
    constructor
    · simp only [morningCount, List.countP_append] at hm1 hsu1 hw1 ⊢
      omega
    · rw [hkey, hw2, hsu2, hm2]
  · right
    refine ⟨?_, ?_, by rw [hkey]; exact hm3⟩
    · simp only [morningCount, List.countP_append] at hm1 hsu1 hw1 ⊢
      omega
    · rw [hkey, hw2, hsu2, hm2]
      exact lastOf_markFired_self st _ _

/-- Helper: once the marker carries todays date, no further tick of the
same day sends a morning nudge, and the marker keeps the date. -/
theorem runTicks_no_morning (uid : ℤ) (tz : String) (d : String) :
    ∀ (ticks : List Tick) (st : SchedState),
      (∀ t ∈ ticks, t.dateStr = d) →
      st.lastOf (morningKey uid tz) = some d →
      morningCount (runTicks st uid tz ticks).2 = 0 ∧
      (runTicks st uid tz ticks).1.lastOf (morningKey uid tz) = some d := by
  intro ticks
  induction ticks with
  | nil => intro st _ hm; exact ⟨rfl, hm⟩
  | cons t ts ih =>
    intro st hd hm
    have hdt : t.dateStr = d := hd t (by simp)
    rcases tick_morning_char st uid tz t with ⟨h1, h2⟩ | ⟨h1, h2, h3⟩
    · have hrest := ih (schedulerTickUser st uid tz t).1
        (fun x hx => hd x (by simp [hx])) (by rw [h2]; exact hm)
      rw [runTicks]
      simp only [morningCount, List.countP_append] at h1 hrest ⊢
      exact ⟨by omega, hrest.2⟩
    · exact absurd hm (hdt ▸ h3)

/-- Helper: over any ticks of a single day, at most one morning nudge. -/
theorem runTicks_morning_le_one (uid : ℤ) (tz : String) (d : String) :
    ∀ (ticks : List Tick) (st : SchedState),
      (∀ t ∈ ticks, t.dateStr = d) →
      morningCount (runTicks st uid tz ticks).2 ≤ 1 := by
  intro ticks
  induction ticks with
  | nil => intro st _; simp [runTicks, morningCount]
  | cons t ts ih =>
    intro st hd
    have hdt : t.dateStr = d := hd t (by simp)
    rcases tick_morning_char st uid tz t with ⟨h1, _⟩ | ⟨h1, h2, _⟩
    · have hrest := ih (schedulerTickUser st uid tz t).1 (fun x hx => hd x (by simp [hx]))
      rw [runTicks]
      simp only [morningCount, List.countP_append] at h1 hrest ⊢
      omega
    · have hrest := runTicks_no_morning uid tz d ts (schedulerTickUser st uid tz t).1
        (fun x hx => hd x (by simp [hx])) (by rw [h2, hdt])
      rw [runTicks]
      simp only [morningCount, List.countP_append] at h1 hrest ⊢
      omega

/-- C9: the morning nudge fires at most once per user per calendar day
(the in-memory marker keyed by the date string blocks repeats for any
tick sequence of a single day), and sixty consecutive one-minute ticks
spanning the 08:00 boundary produce exactly one morning send. -/
theorem morning_nudge_once_per_day :
    (∀ (st : SchedState) (uid : ℤ) (tz : String) (ticks : List Tick) (d : String),
      (∀ t ∈ ticks, t.dateStr = d) →
      morningCount (runTicks st uid tz ticks).2 ≤ 1) ∧
    morningCount (runTicks {} 7 "UTC" (sixtyTicks "Mon Oct 12 2026")).2 = 1 := by
  constructor
  · intro st uid tz ticks d hd
    exact runTicks_morning_le_one uid tz d ticks st hd
  · decide

/-- Witness for C9: the general at-most-once bound applied to the
concrete sixty-tick day. -/
theorem morning_nudge_once_per_day_witness :
    morningCount (runTicks {} 7 "UTC" (sixtyTicks "Mon Oct 12 2026")).2 ≤ 1 :=
  morning_nudge_once_per_day.1 {} 7 "UTC" (sixtyTicks "Mon Oct 12 2026")
    "Mon Oct 12 2026" (by decide)


/-- Helper: when the summed token transfers reach the threshold, so does
the final transfer amount (native fallback included). -/
theorem transferredTotal_ge (vault : String) (tx : TxData) (receipt : TxReceipt)
    (bound : ℚ) (hsum : bound ≤ sumVaultTransfers vault receipt.logs) :
    bound ≤ transferredTotal vault tx receipt := by
  simp only [transferredTotal]
  split_ifs with hc
  · simp only [Bool.and_eq_true, decide_eq_true_eq] at hc
    calc bound ≤ sumVaultTransfers vault receipt.logs := hsum
      _ = 0 := hc.1.1
      _ ≤ (tx.value : ℚ) / 10 ^ 18 := le_of_lt hc.2
  · exact hsum

/-- Helper: with the transaction found and its receipt successful,
`verifyPayment` reduces to the amount comparison. -/
theorem verifyPayment_of_found (txHash vault : String) (amount : ℚ) (chain : Chain)
    (tx : TxData) (receipt : TxReceipt)
    (htx : chain.getTransaction txHash = some tx)
    (hrc : chain.getTransactionReceipt txHash = some receipt)
    (hst : receipt.status = 1) :
    verifyPayment txHash vault amount chain =
      (if transferredTotal (jsToLower vault) tx receipt < amount * (99/100) then
        { valid := false, amount := transferredTotal (jsToLower vault) tx receipt,
          «from» := lastTransferSender (jsToLower vault) tx.«from» receipt.logs,
          error := some "insufficient_amount",
          expected := some amount,
          received := some (transferredTotal (jsToLower vault) tx receipt) }
      else
        { valid := true, amount := transferredTotal (jsToLower vault) tx receipt,
          «from» := lastTransferSender (jsToLower vault) tx.«from» receipt.logs,
          txHash := some txHash, blockNumber := some receipt.blockNumber }) := by
  rw [verifyPayment, htx, hrc]
  dsimp only
  rw [if_neg (fun hh => hh hst)]

/-- C2: with no X-PAYMENT header the gate answers 402 carrying the same
requirements object in the X-PAYMENT-REQUIRED header and in the body
paymentRequirements field; a payment naming a successful transaction
whose summed Transfer-to-vault amount reaches 99 percent of the required
amount passes through; a transaction transferring less than 99 percent
is rejected with reason insufficient_amount reporting the expected and
received figures. -/
theorem x402_gate_spec :
    (∀ (amount : ℚ) (description resource vault : String) (chain : Chain),
      vault ≠ "" →
      ∃ reqs, x402PaymentGate amount description resource vault chain none =
        .paymentRequired reqs reqs) ∧
    (∀ (amount : ℚ) (description resource vault : String) (chain : Chain)
       (h : String) (tx : TxData) (receipt : TxReceipt),
      vault ≠ "" →
      chain.getTransaction h = some tx →
      chain.getTransactionReceipt h = some receipt →
      receipt.status = 1 →
      amount * (99/100) ≤ sumVaultTransfers (jsToLower vault) receipt.logs →
      ∃ amt sender bn,
        x402PaymentGate amount description resource vault chain (some (.rawHash h)) =
          .passThrough true h amt sender bn) ∧
    (∀ (amount : ℚ) (description resource vault : String) (chain : Chain)
       (h : String) (tx : TxData) (receipt : TxReceipt),
      vault ≠ "" →
      chain.getTransaction h = some tx →
      chain.getTransactionReceipt h = some receipt →
      receipt.status = 1 →
      transferredTotal (jsToLower vault) tx receipt < amount * (99/100) →
      ∃ r, x402PaymentGate amount description resource vault chain (some (.rawHash h)) =
          .verificationFailed r ∧
        r.error = some "insufficient_amount" ∧
        r.expected = some amount ∧
        r.received = some (transferredTotal (jsToLower vault) tx receipt)) := by
  refine ⟨?_, ?_, ?_⟩
  · intro amount description resource vault chain hv
    rw [x402PaymentGate, if_neg hv]
    exact ⟨_, rfl⟩
  · intro amount description resource vault chain h tx receipt hv htx hrc hst hsum
    have hge : ¬ transferredTotal (jsToLower vault) tx receipt < amount * (99/100) :=
      not_lt.2 (transferredTotal_ge (jsToLower vault) tx receipt _ hsum)
    have hver : verifyPayment h vault amount chain =
        { valid := true, amount := transferredTotal (jsToLower vault) tx receipt,
          «from» := lastTransferSender (jsToLower vault) tx.«from» receipt.logs,
          txHash := some h, blockNumber := some receipt.blockNumber } := by
      rw [verifyPayment_of_found h vault amount chain tx receipt htx hrc hst]
      rw [if_neg hge]
    have hjs : (jsField [("txHash", h)] "txHash" <|> jsField [("txHash", h)] "tx_hash" <|>
        jsField [("txHash", h)] "hash") = some h := rfl
    refine ⟨transferredTotal (jsToLower vault) tx receipt,
      lastTransferSender (jsToLower vault) tx.«from» receipt.logs,
      some receipt.blockNumber, ?_⟩
    rw [x402PaymentGate, if_neg hv]
    dsimp only
    rw [hjs]
    dsimp only
    rw [hver]
    rw [if_pos rfl]
  · intro amount description resource vault chain h tx receipt hv htx hrc hst hlt
    have hver : verifyPayment h vault amount chain =
        { valid := false, amount := transferredTotal (jsToLower vault) tx receipt,
          «from» := lastTransferSender (jsToLower vault) tx.«from» receipt.logs,
          error := some "insufficient_amount",
          expected := some amount,
          received := some (transferredTotal (jsToLower vault) tx receipt) } := by
      rw [verifyPayment_of_found h vault amount chain tx receipt htx hrc hst]
      rw [if_pos hlt]
    have hjs : (jsField [("txHash", h)] "txHash" <|> jsField [("txHash", h)] "tx_hash" <|>
        jsField [("txHash", h)] "hash") = some h := rfl
    refine ⟨verifyPayment h vault amount chain, ?_, ?_, ?_, ?_⟩
    · rw [x402PaymentGate, if_neg hv]
      dsimp only
      rw [hjs]
      dsimp only
      rw [hver]
      rw [if_neg (by simp)]
    · rw [hver]
    · rw [hver]
    · rw [hver]


/-- Helper: the good demo receipt sums to 0.1 token. -/
theorem demo_sum_good :
    sumVaultTransfers (jsToLower demoVault) demoReceiptGood.logs = ((10 ^ 17 : ℕ) : ℚ) / 10 ^ 18 := by
  have hmatch : logMatchesVault (jsToLower demoVault) (demoTransferLog (10 ^ 17)) = true := by decide
  rw [sumVaultTransfers]
  rw [show demoReceiptGood.logs = [demoTransferLog (10 ^ 17)] from rfl]
  rw [List.filter_cons, if_pos hmatch]
  simp [demoTransferLog]

/-- Helper: the bad demo receipt sums to 0.09 token. -/
theorem demo_sum_bad :
    sumVaultTransfers (jsToLower demoVault) demoReceiptBad.logs = ((9 * 10 ^ 16 : ℕ) : ℚ) / 10 ^ 18 := by
  have hmatch : logMatchesVault (jsToLower demoVault) (demoTransferLog (9 * 10 ^ 16)) = true := by decide
  rw [sumVaultTransfers]
  rw [show demoReceiptBad.logs = [demoTransferLog (9 * 10 ^ 16)] from rfl]
  rw [List.filter_cons, if_pos hmatch]
  simp [demoTransferLog]

/-- Helper: the bad demo transfer totals 0.09 token. -/
theorem demo_total_bad :
    transferredTotal (jsToLower demoVault) demoTx demoReceiptBad = ((9 * 10 ^ 16 : ℕ) : ℚ) / 10 ^ 18 := by
  simp only [transferredTotal]
  rw [demo_sum_bad]
  rw [if_neg (by
    simp only [Bool.and_eq_true, decide_eq_true_eq]
    rintro ⟨⟨h0, _⟩, _⟩
    norm_num at h0)]

/-- Witness for C2 on the demo chain: a 0.1 cUSD requirement, a full
payment passing, and a 0.09 cUSD payment rejected. -/
theorem x402_gate_spec_witness :
    (∃ reqs, x402PaymentGate (1/10) "MyDay Guardian x402 protocol fee" "/x402/stake"
        demoVault demoChain none = .paymentRequired reqs reqs) ∧
    (∃ amt sender bn, x402PaymentGate (1/10) "MyDay Guardian x402 protocol fee" "/x402/stake"
        demoVault demoChain (some (.rawHash "0xgood")) = .passThrough true "0xgood" amt sender bn) ∧
    (∃ r, x402PaymentGate (1/10) "MyDay Guardian x402 protocol fee" "/x402/stake"
        demoVault demoChain (some (.rawHash "0xbad")) = .verificationFailed r ∧
      r.error = some "insufficient_amount" ∧ r.expected = some (1/10) ∧
      r.received = some (transferredTotal (jsToLower demoVault) demoTx demoReceiptBad)) := by
  refine ⟨x402_gate_spec.1 (1/10) _ _ demoVault demoChain (by decide),
    x402_gate_spec.2.1 (1/10) _ _ demoVault demoChain "0xgood" demoTx demoReceiptGood
      (by decide) rfl rfl rfl ?_,
    x402_gate_spec.2.2 (1/10) _ _ demoVault demoChain "0xbad" demoTx demoReceiptBad
      (by decide) rfl rfl rfl ?_⟩
  · rw [demo_sum_good]
    norm_num
  · rw [demo_total_bad]
    norm_num

end MyDay
